import Mathlib

/-!
Shallow embedding of `src/main.py` (Yahoo-Finance-Downloader): a CLI that
loads a JSON list of ticker requests, fetches historical data per request
through an external library, and writes one CSV per successful non-empty
fetch.

Modelling conventions:
  * Python values produced by `json.load` are modelled by `PyVal`.
  * `sys.exit(1)` and the catch-all exception handlers of `load_config`
    are modelled by `Except Nat` (error value = process exit code).
  * The external library call `yf.Ticker(t).history(start, end)` is an
    oracle `Fetcher`: for each request it either raises or returns a
    dataframe with a given number of rows; `fetch_and_save_data` is
    parametrised by that oracle.
  * File-system effects are modelled by the list of file paths written and
    a `dirCreated` flag; log output by a list of `LogLine`s (timestamps
    and exception texts omitted).  Only the log lines the program emits on
    the modelled paths are carried.
  * Field values in configuration items are strings (the configuration
    format of the spec fixes all three fields as strings); a request dict
    whose lookup of one of the three keys fails raises outside the
    `try` block of `fetch_and_save_data`, modelled as `Except.error ()`
    (an uncaught exception that aborts the batch).
-/

namespace YFD

/-- A Python value as produced by `json.load`. -/
inductive PyVal where
  | null
  | bool (b : Bool)
  | int (n : Int)
  | str (s : String)
  | list (xs : List PyVal)
  | dict (entries : List (String × PyVal))

/-- Logging severity used by `main.py` (`logging.info/warning/error`). -/
inductive LogLevel where
  | info
  | warning
  | error
deriving DecidableEq, Repr

/-- One log line: severity and message (timestamp omitted). -/
structure LogLine where
  level : LogLevel
  msg : String
deriving DecidableEq, Repr

/-- The result of the external call `yf.Ticker(t).history(start, end)`:
either it raises (any exception: network failure, invalid ticker, ...) or
it returns a dataframe with `n` rows (`n = 0` means `history_df.empty`). -/
inductive FetchResult where
  | raises
  | rows (n : Nat)

/-- The external data source, an oracle per (ticker, start, end). -/
def Fetcher : Type := String → String → String → FetchResult

/-- `OUTPUT_DIR = Path("historical_data")` (line 20). -/
def OUTPUT_DIR : String := "historical_data"

/-- Python membership `key in item` for the three key checks of
`load_config` (line 48).  On a dict it tests key presence; on a string it
is substring containment; on a list it is element equality with the key
string; on other values it raises `TypeError`, modelled as `.error ()`. -/
def pyContains (key : String) : PyVal → Except Unit Bool
  | .dict es => .ok (es.any (fun p => p.1 == key))
  | .str s => .ok (decide (List.IsInfix key.data s.data))
  | .list xs => .ok (xs.any (fun x => match x with
      | .str s => s == key
      | _ => false))
  | _ => .error ()

/-- `all(key in item for key in ["ticker", "start_date", "end_date"])`
(line 48), with Python's left-to-right short-circuit evaluation; a raised
`TypeError` propagates (`.error ()`). -/
def itemValid (item : PyVal) : Except Unit Bool :=
  match pyContains "ticker" item with
  | .error e => .error e
  | .ok false => .ok false
  | .ok true =>
    match pyContains "start_date" item with
    | .error e => .error e
    | .ok false => .ok false
    | .ok true => pyContains "end_date" item

/-- The validation loop of `load_config` (lines 47-49): stops at the first
item that fails the key check (`ValueError`, `.ok false`) or raises
(`.error ()`); `.ok true` means every item passed. -/
def validateItems : List PyVal → Except Unit Bool
  | [] => .ok true
  | item :: rest =>
    match itemValid item with
    | .error e => .error e
    | .ok false => .ok false
    | .ok true => validateItems rest

/-- The input `load_config` sees: the file is missing, the file exists but
is not valid JSON (`json.JSONDecodeError`), or it parses to a value. -/
inductive ConfigInput where
  | missing
  | invalidJson
  | parsed (v : PyVal)

/-- `load_config` (lines 24-62).  Missing file: `sys.exit(1)`.  Decode
error, non-list top level (`ValueError`), failed key check (`ValueError`)
and any other exception are all caught and end in `sys.exit(1)`.  On
success the parsed list is returned verbatim. -/
def load_config : ConfigInput → Except Nat (List PyVal)
  | .missing => .error 1
  | .invalidJson => .error 1
  | .parsed (PyVal.list xs) =>
    match validateItems xs with
    | .ok true => .ok xs
    | .ok false => .error 1
    | .error _ => .error 1
  | .parsed _ => .error 1

/-- Python dict lookup `item[key]` (lines 72-74): `none` models a raised
`KeyError` (missing key) or `TypeError` (not a dict). -/
def dictGet (key : String) : PyVal → Option PyVal
  | .dict es => (es.find? (fun p => p.1 == key)).map (fun p => p.2)
  | _ => none

/-- `ticker_str.replace(".", "_")` (line 93): the pattern is the single
character `.`, so the replacement is a per-character map. -/
def sanitizeChars (cs : List Char) : List Char :=
  cs.map (fun c => if c = '.' then '_' else c)

/-- `safe_ticker_str` (line 93). -/
def sanitizeTicker (t : String) : String :=
  String.mk (sanitizeChars t.data)

/-- `filename = f"{safe_ticker_str}_{start}_to_{end}.csv"` (line 94). -/
def fileName (t s e : String) : String :=
  sanitizeTicker t ++ "_" ++ s ++ "_to_" ++ e ++ ".csv"

/-- Log line of line 76. -/
def fetchingLog (t s e : String) : LogLine :=
  ⟨.info, "Fetching data for " ++ t ++ " from " ++ s ++ " to " ++ e ++ "..."⟩

/-- Log line of line 88 (empty result). -/
def noDataLog (t : String) : LogLine :=
  ⟨.warning, "No data found for " ++ t ++ " in the given date range."⟩

/-- Log line of line 99 (successful save). -/
def savedLog (path : String) : LogLine :=
  ⟨.info, "Successfully saved data to " ++ path⟩

/-- Log line of line 103 (caught exception; exception text omitted). -/
def fetchFailLog (t : String) : LogLine :=
  ⟨.error, "Failed to fetch or save data for " ++ t⟩

/-- The body of `fetch_and_save_data` after field extraction (lines
76-103), given the already-extracted string fields: returns the list of
file paths written and the log lines emitted. -/
def workerRun (fetchFn : Fetcher) (t s e dir : String) :
    List String × List LogLine :=
  match fetchFn t s e with
  | .raises => ([], [fetchingLog t s e, fetchFailLog t])
  | .rows 0 => ([], [fetchingLog t s e, noDataLog t])
  | .rows (_ + 1) =>
    let path := dir ++ "/" ++ fileName t s e
    ([path], [fetchingLog t s e, savedLog path])

/-- `fetch_and_save_data` (lines 64-103).  The three field lookups of
lines 72-74 happen before the `try` block: if one raises, the exception is
uncaught (`.error ()`).  Everything inside the `try` is absorbed by the
`except` clause, so the body always returns. -/
def fetch_and_save_data (fetchFn : Fetcher) (req : PyVal) (dir : String) :
    Except Unit (List String × List LogLine) :=
  match dictGet "ticker" req, dictGet "start_date" req, dictGet "end_date" req with
  | some (.str t), some (.str s), some (.str e) =>
    .ok (workerRun fetchFn t s e dir)
  | _, _, _ => .error ()

/-- Accumulated effects of the request loop (lines 137-138). -/
structure BatchResult where
  files : List String
  logs : List LogLine
  crashed : Bool
deriving DecidableEq, Repr

/-- The request loop of `main` (lines 137-138): each request is handed to
`fetch_and_save_data`; an uncaught exception aborts the loop (`crashed`),
keeping the files and logs produced so far. -/
def processRequests (fetchFn : Fetcher) (dir : String) :
    List PyVal → BatchResult
  | [] => ⟨[], [], false⟩
  | req :: rest =>
    match fetch_and_save_data fetchFn req dir with
    | .error _ => ⟨[], [], true⟩
    | .ok (fs, ls) =>
      let r := processRequests fetchFn dir rest
      ⟨fs ++ r.files, ls ++ r.logs, r.crashed⟩

/-- Log line of line 134 (empty request list). -/
def emptyWarning : LogLine :=
  ⟨.warning, "No data fetch requests found in the configuration."⟩

/-- Log line of line 140 (final completion message). -/
def completionLog : LogLine :=
  ⟨.info, "All data fetching tasks complete."⟩

/-- Outcome of one run of the program. -/
structure RunResult where
  exitCode : Nat
  dirCreated : Bool
  files : List String
  logs : List LogLine
  crashed : Bool
deriving DecidableEq, Repr

/-- `main` (lines 105-140) after argument parsing: load the configuration
(exits 1 on failure, before any directory work), create `OUTPUT_DIR`
(exits 1 if `mkdir` raises `OSError`), warn and return on an empty request
list, otherwise run the loop and log completion.  An uncaught exception in
the loop ends the process with exit code 1. -/
def main_run (input : ConfigInput) (mkdirFails : Bool) (fetchFn : Fetcher) :
    RunResult :=
  match load_config input with
  | .error code => ⟨code, false, [], [], false⟩
  | .ok requests =>
    if mkdirFails then ⟨1, false, [], [], false⟩
    else if requests.isEmpty then ⟨0, true, [], [emptyWarning], false⟩
    else
      let b := processRequests fetchFn OUTPUT_DIR requests
      if b.crashed then ⟨1, true, b.files, b.logs, true⟩
      else ⟨0, true, b.files, b.logs ++ [completionLog], false⟩

/-- A well-formed request dict, as one element of the configuration list:
`{"ticker": t, "start_date": s, "end_date": e}`. -/
def mkReq (t s e : String) : PyVal :=
  .dict [("ticker", .str t), ("start_date", .str s), ("end_date", .str e)]

/-- A list of well-formed request dicts from (ticker, start, end) triples. -/
def mkReqs (l : List (String × String × String)) : List PyVal :=
  l.map (fun r => mkReq r.1 r.2.1 r.2.2)

/-- Key presence in a dict's entry list (`key in item` for a dict). -/
def hasField (key : String) (es : List (String × PyVal)) : Bool :=
  es.any (fun p => p.1 == key)

/-- A sample external data source for concrete instances: raises on the
ticker "BAD", returns a five-row dataframe for every other ticker. -/
def sampleFetcher : Fetcher := fun t _ _ =>
  if t = "BAD" then FetchResult.raises else FetchResult.rows 5

/-- A sample external data source that always returns an empty dataframe. -/
def emptyFetcher : Fetcher := fun _ _ _ => FetchResult.rows 0

/-- Characters invalid in a POSIX filename component: the path separator
and the NUL character. -/
def isFilenameInvalidChar (c : Char) : Bool :=
  c = '/' || c = Char.ofNat 0

/-!  Helper lemmas. -/

/-- A well-formed request dict always reaches the `try` body: field
extraction succeeds and the worker returns normally. -/
theorem fetch_and_save_data_mkReq (f : Fetcher) (t s e dir : String) :
    fetch_and_save_data f (mkReq t s e) dir = Except.ok (workerRun f t s e dir) := rfl

theorem processRequests_cons_mkReq (f : Fetcher) (dir t s e : String)
    (rest : List PyVal) :
    processRequests f dir (mkReq t s e :: rest) =
      ⟨(workerRun f t s e dir).1 ++ (processRequests f dir rest).files,
       (workerRun f t s e dir).2 ++ (processRequests f dir rest).logs,
       (processRequests f dir rest).crashed⟩ := rfl

/-- A batch of well-formed request dicts never crashes. -/
theorem processRequests_mkReqs_crashed (f : Fetcher) (dir : String)
    (l : List (String × String × String)) :
    (processRequests f dir (mkReqs l)).crashed = false := by
  induction l with
  | nil => rfl
  | cons a l ih =>
    simpa [mkReqs, processRequests_cons_mkReq] using ih

/-- Over well-formed request dicts, the loop acts independently on the two
halves of an appended batch. -/
theorem processRequests_mkReqs_append (f : Fetcher) (dir : String)
    (l₁ : List (String × String × String)) (rest : List PyVal) :
    processRequests f dir (mkReqs l₁ ++ rest) =
      ⟨(processRequests f dir (mkReqs l₁)).files ++ (processRequests f dir rest).files,
       (processRequests f dir (mkReqs l₁)).logs ++ (processRequests f dir rest).logs,
       (processRequests f dir rest).crashed⟩ := by
  induction l₁ with
  | nil => simp [mkReqs, processRequests]
  | cons a l ih =>
    simp [mkReqs, processRequests_cons_mkReq] at *
    simp [ih, processRequests_mkReqs_crashed]

/-- On a dict item the key check computes the conjunction of the three
key-presence tests (no `TypeError` is possible). -/
theorem itemValid_dict (es : List (String × PyVal)) :
    itemValid (PyVal.dict es) =
      Except.ok (hasField "ticker" es &&
        (hasField "start_date" es && hasField "end_date" es)) := by
  simp only [itemValid, pyContains, hasField]
  cases es.any (fun p => p.1 == "ticker") <;>
    cases es.any (fun p => p.1 == "start_date") <;>
      cases es.any (fun p => p.1 == "end_date") <;> rfl

theorem validateItems_ok_of_all (xs : List PyVal)
    (h : ∀ item ∈ xs, itemValid item = Except.ok true) :
    validateItems xs = Except.ok true := by
  induction xs with
  | nil => rfl
  | cons a l ih =>
    have ha := h a (List.mem_cons_self a l)
    simp only [validateItems, ha]
    exact ih (fun item hm => h item (List.mem_cons_of_mem a hm))

theorem all_of_validateItems_ok (xs : List PyVal)
    (h : validateItems xs = Except.ok true) :
    ∀ item ∈ xs, itemValid item = Except.ok true := by
  induction xs with
  | nil => intro item hm; simp at hm
  | cons a l ih =>
    intro item hm
    simp only [validateItems] at h
    cases hv : itemValid a with
    | error e => rw [hv] at h; exact Except.noConfusion h
    | ok b =>
      rw [hv] at h
      cases b with
      | false => exact Except.noConfusion h (fun heq => Bool.noConfusion heq)
      | true =>
        rcases List.mem_cons.mp hm with rfl | hm2
        · exact hv
        · exact ih h item hm2

theorem load_config_parsed_list (xs : List PyVal) :
    load_config (ConfigInput.parsed (PyVal.list xs)) =
      match validateItems xs with
      | .ok true => .ok xs
      | .ok false => .error 1
      | .error _ => .error 1 := rfl

theorem load_config_ok_inv (input : ConfigInput) (ys : List PyVal)
    (h : load_config input = Except.ok ys) :
    input = ConfigInput.parsed (PyVal.list ys) ∧
      validateItems ys = Except.ok true := by
  cases input with
  | missing => exact Except.noConfusion h
  | invalidJson => exact Except.noConfusion h
  | parsed v =>
    cases v with
    | list xs =>
      rw [load_config_parsed_list] at h
      cases hv : validateItems xs with
      | error e => rw [hv] at h; exact Except.noConfusion h
      | ok b =>
        rw [hv] at h
        cases b with
        | false => exact Except.noConfusion h
        | true =>
          have hxs : xs = ys := by
            have := h
            injection this
          subst hxs
          exact ⟨rfl, hv⟩
    | null => exact Except.noConfusion h
    | bool b => exact Except.noConfusion h
    | int n => exact Except.noConfusion h
    | str s => exact Except.noConfusion h
    | dict es => exact Except.noConfusion h

/-- A well-formed request dict passes the key check. -/
theorem itemValid_mkReq (t s e : String) :
    itemValid (mkReq t s e) = Except.ok true := rfl

/-!  Claim theorems. -/

/-- Claim C2: for every configuration input that is missing the file, is
not valid JSON, does not parse to a list, or whose list contains an object
element lacking one of the keys "ticker", "start_date", "end_date",
`load_config` terminates the process with exit status 1 and returns no
request sequence; a single malformed element invalidates the whole load. -/
theorem c2_invalid_config_exits_one (input : ConfigInput)
    (h : input = ConfigInput.missing
       ∨ input = ConfigInput.invalidJson
       ∨ (∃ v, input = ConfigInput.parsed v ∧ ∀ xs, v ≠ PyVal.list xs)
       ∨ (∃ xs es, input = ConfigInput.parsed (PyVal.list xs)
            ∧ PyVal.dict es ∈ xs
            ∧ (hasField "ticker" es = false ∨ hasField "start_date" es = false
                ∨ hasField "end_date" es = false))) :
    load_config input = Except.error 1 := by
  rcases h with rfl | rfl | ⟨v, rfl, hv⟩ | ⟨xs, es, rfl, hmem, hmiss⟩
  · rfl
  · rfl
  · cases v with
    | list xs => exact absurd rfl (hv xs)
    | null => rfl
    | bool b => rfl
    | int n => rfl
    | str s => rfl
    | dict es => rfl
  · have hitem : itemValid (PyVal.dict es) = Except.ok false := by
      rw [itemValid_dict]
      rcases hmiss with h1 | h1 | h1 <;> simp [h1]
    rw [load_config_parsed_list]
    cases hv : validateItems xs with
    | error e => rfl
    | ok b =>
      cases b with
      | false => rfl
      | true =>
        have hall := all_of_validateItems_ok xs hv (PyVal.dict es) hmem
        rw [hitem] at hall
        injection hall with hfb
        exact Bool.noConfusion hfb

/-- Witness for C2: a one-element list whose object lacks "start_date". -/
theorem c2_invalid_config_exits_one_witness :
    load_config (ConfigInput.parsed (PyVal.list
      [PyVal.dict [("ticker", PyVal.str "AAPL"), ("end_date", PyVal.str "2020-12-31")]]))
      = Except.error 1 :=
  c2_invalid_config_exits_one _
    (Or.inr (Or.inr (Or.inr ⟨_, _, rfl, List.mem_cons_self _ _,
      Or.inr (Or.inl rfl)⟩)))

/-- Claim C3: for every configuration list all of whose elements are
objects carrying the three required keys, `load_config` returns exactly
the input list (`Except.ok xs`): same length, same order, every field
value preserved verbatim, duplicates retained. -/
theorem c3_valid_config_returned_verbatim (xs : List PyVal)
    (h : ∀ item ∈ xs, ∃ es, item = PyVal.dict es
        ∧ hasField "ticker" es = true ∧ hasField "start_date" es = true
        ∧ hasField "end_date" es = true) :
    load_config (ConfigInput.parsed (PyVal.list xs)) = Except.ok xs := by
  have hall : ∀ item ∈ xs, itemValid item = Except.ok true := by
    intro item hm
    rcases h item hm with ⟨es, rfl, h1, h2, h3⟩
    rw [itemValid_dict, h1, h2, h3]
    rfl
  rw [load_config_parsed_list, validateItems_ok_of_all xs hall]

/-- Witness for C3: a two-element list with a duplicate request. -/
theorem c3_valid_config_returned_verbatim_witness :
    load_config (ConfigInput.parsed (PyVal.list
      [mkReq "AAPL" "2020-01-01" "2020-12-31",
       mkReq "AAPL" "2020-01-01" "2020-12-31"]))
      = Except.ok
      [mkReq "AAPL" "2020-01-01" "2020-12-31",
       mkReq "AAPL" "2020-01-01" "2020-12-31"] :=
  c3_valid_config_returned_verbatim _ (by
    intro item hm
    rcases List.mem_cons.mp hm with rfl | hm2
    · exact ⟨_, rfl, rfl, rfl, rfl⟩
    rcases List.mem_cons.mp hm2 with rfl | hm3
    · exact ⟨_, rfl, rfl, rfl, rfl⟩
    · simp at hm3)

/-- Claim C7 is false on the code: `load_config` checks only key
presence, not non-emptiness, so an element whose three fields are all
empty strings is accepted and returned; its "ticker" value is the empty
string. -/
theorem c7_counterexample_empty_fields_accepted :
    load_config (ConfigInput.parsed (PyVal.list [mkReq "" "" ""]))
      = Except.ok [mkReq "" "" ""]
    ∧ dictGet "ticker" (mkReq "" "" "") = some (PyVal.str "") :=
  ⟨rfl, rfl⟩

/-- Claim C7 amended: every element returned by a successful load passes
the key-presence check (`itemValid`), and every object element carries all
three keys; non-emptiness of the values is not guaranteed. -/
theorem c7_loaded_items_have_all_keys (input : ConfigInput)
    (ys : List PyVal) (h : load_config input = Except.ok ys) :
    (∀ item ∈ ys, itemValid item = Except.ok true)
    ∧ ∀ es, PyVal.dict es ∈ ys →
        hasField "ticker" es = true ∧ hasField "start_date" es = true
          ∧ hasField "end_date" es = true := by
  have hall := all_of_validateItems_ok ys (load_config_ok_inv input ys h).2
  refine ⟨hall, ?_⟩
  intro es hmem
  have hd := hall (PyVal.dict es) hmem
  rw [itemValid_dict] at hd
  injection hd with hb
  simp only [Bool.and_eq_true] at hb
  exact ⟨hb.1, hb.2.1, hb.2.2⟩

/-- Witness for the amended C7, at a concrete loaded configuration. -/
theorem c7_loaded_items_have_all_keys_witness :
    itemValid (mkReq "A.B" "2024-01-01" "2024-06-30") = Except.ok true :=
  (c7_loaded_items_have_all_keys
    (ConfigInput.parsed (PyVal.list [mkReq "A.B" "2024-01-01" "2024-06-30"]))
    [mkReq "A.B" "2024-01-01" "2024-06-30"] rfl).1
    (mkReq "A.B" "2024-01-01" "2024-06-30") (List.mem_cons_self _ _)

/-- Claim C1: in any batch of well-formed requests, a request whose
external fetch raises contributes no file, the error is logged, and every
subsequent request is still processed (the batch's files are exactly those
of the requests before and after the failing one); in particular, a
two-request run whose first fetch raises and whose second returns rows
produces exactly the second request's file and exits 0. -/
theorem c1_fetch_error_does_not_abort_batch
    (f : Fetcher) (pre post : List (String × String × String)) (t s e : String)
    (hraise : f t s e = FetchResult.raises) :
    ((processRequests f OUTPUT_DIR (mkReqs pre ++ mkReq t s e :: mkReqs post)).files
        = (processRequests f OUTPUT_DIR (mkReqs pre)).files
          ++ (processRequests f OUTPUT_DIR (mkReqs post)).files
      ∧ fetchFailLog t
          ∈ (processRequests f OUTPUT_DIR (mkReqs pre ++ mkReq t s e :: mkReqs post)).logs)
    ∧ ∀ t₂ s₂ e₂ : String, ∀ n : Nat, f t₂ s₂ e₂ = FetchResult.rows (n + 1) →
        main_run (ConfigInput.parsed (PyVal.list [mkReq t s e, mkReq t₂ s₂ e₂])) false f
          = ⟨0, true, [OUTPUT_DIR ++ "/" ++ fileName t₂ s₂ e₂],
              [fetchingLog t s e, fetchFailLog t,
               fetchingLog t₂ s₂ e₂,
               savedLog (OUTPUT_DIR ++ "/" ++ fileName t₂ s₂ e₂),
               completionLog], false⟩ := by
  constructor
  · rw [processRequests_mkReqs_append f OUTPUT_DIR pre (mkReq t s e :: mkReqs post),
      processRequests_cons_mkReq]
    constructor
    · simp [workerRun, hraise]
    · simp [workerRun, hraise, fetchingLog, fetchFailLog]
  · intro t₂ s₂ e₂ n h₂
    have hload : load_config (ConfigInput.parsed
        (PyVal.list [mkReq t s e, mkReq t₂ s₂ e₂]))
        = Except.ok [mkReq t s e, mkReq t₂ s₂ e₂] := rfl
    rw [main_run, hload]
    simp only [Bool.false_eq_true, if_false, List.isEmpty_cons]
    rw [processRequests_cons_mkReq, processRequests_cons_mkReq]
    simp [processRequests, workerRun, hraise, h₂]

/-- Witness for C1: two concrete requests, the first raising, the second
returning five rows; exactly the second one's file is produced. -/
theorem c1_fetch_error_does_not_abort_batch_witness :
    main_run (ConfigInput.parsed (PyVal.list
        [mkReq "BAD" "2020-01-01" "2020-12-31",
         mkReq "GOOD" "2020-01-01" "2020-12-31"])) false sampleFetcher
      = ⟨0, true,
         [OUTPUT_DIR ++ "/" ++ fileName "GOOD" "2020-01-01" "2020-12-31"],
         [fetchingLog "BAD" "2020-01-01" "2020-12-31", fetchFailLog "BAD",
          fetchingLog "GOOD" "2020-01-01" "2020-12-31",
          savedLog (OUTPUT_DIR ++ "/" ++ fileName "GOOD" "2020-01-01" "2020-12-31"),
          completionLog], false⟩ :=
  (c1_fetch_error_does_not_abort_batch sampleFetcher [] []
      "BAD" "2020-01-01" "2020-12-31" rfl).2
    "GOOD" "2020-01-01" "2020-12-31" 4 rfl

/-- Claim C4: for a single well-formed request, a fetch returning zero
rows yields a warning log and no file (a normal return, not an error),
and a fetch returning at least one row yields exactly one file at the
deterministic path derived from the request. -/
theorem c4_empty_is_noop_nonempty_writes_one_file
    (f : Fetcher) (t s e dir : String) :
    (f t s e = FetchResult.rows 0 →
      fetch_and_save_data f (mkReq t s e) dir =
        Except.ok ([], [fetchingLog t s e, noDataLog t]))
    ∧ (∀ n : Nat, f t s e = FetchResult.rows (n + 1) →
      fetch_and_save_data f (mkReq t s e) dir =
        Except.ok ([dir ++ "/" ++ fileName t s e],
          [fetchingLog t s e, savedLog (dir ++ "/" ++ fileName t s e)])) := by
  constructor
  · intro h0
    rw [fetch_and_save_data_mkReq]
    simp [workerRun, h0]
  · intro n hn
    rw [fetch_and_save_data_mkReq]
    simp [workerRun, hn]

/-- Witness for C4: an always-empty fetch writes nothing and only warns; a
five-row fetch writes exactly one file. -/
theorem c4_empty_is_noop_nonempty_writes_one_file_witness :
    fetch_and_save_data emptyFetcher (mkReq "AAPL" "2020-01-01" "2020-12-31") OUTPUT_DIR
      = Except.ok ([], [fetchingLog "AAPL" "2020-01-01" "2020-12-31", noDataLog "AAPL"])
    ∧ fetch_and_save_data sampleFetcher (mkReq "AAPL" "2020-01-01" "2020-12-31") OUTPUT_DIR
      = Except.ok ([OUTPUT_DIR ++ "/" ++ fileName "AAPL" "2020-01-01" "2020-12-31"],
          [fetchingLog "AAPL" "2020-01-01" "2020-12-31",
           savedLog (OUTPUT_DIR ++ "/" ++ fileName "AAPL" "2020-01-01" "2020-12-31")]) :=
  ⟨(c4_empty_is_noop_nonempty_writes_one_file emptyFetcher
      "AAPL" "2020-01-01" "2020-12-31" OUTPUT_DIR).1 rfl,
   (c4_empty_is_noop_nonempty_writes_one_file sampleFetcher
      "AAPL" "2020-01-01" "2020-12-31" OUTPUT_DIR).2 4 rfl⟩

/-- Claim C5: on a successful non-empty fetch the single output file is
written under the fixed output directory with name
`sanitized-ticker ++ "_" ++ start ++ "_to_" ++ end ++ ".csv"`, where
sanitization maps every '.' of the ticker to '_' and leaves every other
character unchanged; in particular the ticker "BRK.B" over 2020-01-01 to
2020-12-31 yields "BRK_B_2020-01-01_to_2020-12-31.csv". -/
theorem c5_filename_shape_and_dot_sanitization
    (f : Fetcher) (t s e : String) (n : Nat)
    (hn : f t s e = FetchResult.rows (n + 1)) :
    (fetch_and_save_data f (mkReq t s e) OUTPUT_DIR).map (fun r => r.1)
      = Except.ok [OUTPUT_DIR ++ "/"
          ++ (sanitizeTicker t ++ "_" ++ s ++ "_to_" ++ e ++ ".csv")]
    ∧ (sanitizeTicker t).data
        = t.data.map (fun c => if c = '.' then '_' else c)
    ∧ fileName "BRK.B" "2020-01-01" "2020-12-31"
        = "BRK_B_2020-01-01_to_2020-12-31.csv" := by
  refine ⟨?_, rfl, ?_⟩
  · rw [fetch_and_save_data_mkReq]
    simp [workerRun, hn, fileName, Except.map]
  · decide

/-- Witness for C5: the "BRK.B" request against a five-row fetch. -/
theorem c5_filename_shape_and_dot_sanitization_witness :
    (fetch_and_save_data sampleFetcher
        (mkReq "BRK.B" "2020-01-01" "2020-12-31") OUTPUT_DIR).map (fun r => r.1)
      = Except.ok [OUTPUT_DIR ++ "/"
          ++ (sanitizeTicker "BRK.B" ++ "_" ++ "2020-01-01" ++ "_to_"
              ++ "2020-12-31" ++ ".csv")] :=
  (c5_filename_shape_and_dot_sanitization sampleFetcher
    "BRK.B" "2020-01-01" "2020-12-31" 4 rfl).1

/-- Claim C6 is false on the code: sanitization replaces only the literal
'.'; the path separator '/', invalid in a filename component, survives
sanitization and ends up in the output path. -/
theorem c6_counterexample_slash_not_sanitized :
    isFilenameInvalidChar '/' = true
    ∧ sanitizeTicker "A/B" = "A/B"
    ∧ '/' ∈ (sanitizeTicker "A/B").data
    ∧ fileName "A/B" "2020-01-01" "2020-12-31"
        = "A/B_2020-01-01_to_2020-12-31.csv" := by
  refine ⟨rfl, ?_, ?_, ?_⟩ <;> decide

/-- Claim C6 amended: the sanitization step replaces only the literal '.'
character (by '_'); it preserves length, eliminates every '.', and leaves
every filename-invalid character such as '/' or NUL untouched. -/
theorem c6_sanitization_replaces_only_dot (t : String) :
    (sanitizeTicker t).data.length = t.data.length
    ∧ ('.' ∉ (sanitizeTicker t).data)
    ∧ (∀ c, isFilenameInvalidChar c = true →
        (c ∈ (sanitizeTicker t).data ↔ c ∈ t.data)) := by
  refine ⟨by simp [sanitizeTicker, sanitizeChars], ?_, ?_⟩
  · intro hmem
    rcases List.mem_map.mp hmem with ⟨a, ha, hfa⟩
    by_cases hda : a = '.'
    · rw [if_pos hda] at hfa
      exact Char.noConfusion hfa (by decide)
    · rw [if_neg hda] at hfa
      exact hda hfa
  · intro c hc
    have hne : c ≠ '.' ∧ c ≠ '_' := by
      simp only [isFilenameInvalidChar, Bool.or_eq_true, decide_eq_true_eq] at hc
      rcases hc with rfl | rfl <;> exact ⟨by decide, by decide⟩
    constructor
    · intro hmem
      rcases List.mem_map.mp hmem with ⟨a, ha, hfa⟩
      by_cases hda : a = '.'
      · rw [if_pos hda] at hfa
        exact absurd hfa.symm hne.2
      · rw [if_neg hda] at hfa
        exact hfa ▸ ha
    · intro hmem
      refine List.mem_map.mpr ⟨c, hmem, ?_⟩
      rw [if_neg hne.1]

/-- Witness for the amended C6: '.'-elimination on "BRK.B" and
'/'-preservation on "A/B". -/
theorem c6_sanitization_replaces_only_dot_witness :
    ('.' ∉ (sanitizeTicker "BRK.B").data)
    ∧ ('/' ∈ (sanitizeTicker "A/B").data ↔ '/' ∈ ("A/B" : String).data) :=
  ⟨(c6_sanitization_replaces_only_dot "BRK.B").2.1,
   (c6_sanitization_replaces_only_dot "A/B").2.2 '/' rfl⟩

/-- Claim C8: run with a missing configuration file, the driver exits
with status 1 before any directory work: the output directory is not
created and no file is written, whatever the fetcher or the state of
`mkdir` would have been. -/
theorem c8_missing_config_exits_before_mkdir (mkdirFails : Bool) (f : Fetcher) :
    main_run ConfigInput.missing mkdirFails f
      = ⟨1, false, [], [], false⟩ := rfl

/-- Claim C9: run with an empty configuration list, the driver creates
the directory, logs the no-requests warning, writes no file, exits with
status 0, and never reaches the final completion message. -/
theorem c9_empty_list_warns_and_exits_zero (f : Fetcher) :
    main_run (ConfigInput.parsed (PyVal.list [])) false f
      = ⟨0, true, [], [emptyWarning], false⟩
    ∧ emptyWarning.level = LogLevel.warning
    ∧ completionLog ∉ (main_run (ConfigInput.parsed (PyVal.list [])) false f).logs := by
  refine ⟨rfl, rfl, ?_⟩
  show completionLog ∉ [emptyWarning]
  decide

/-- Claim C10: whenever the configuration loads successfully and `mkdir`
does not fail, the output directory is created — also for the empty list
`[]`, where no request is processed and no file is written. -/
theorem c10_dir_created_even_for_empty_batch (input : ConfigInput)
    (reqs : List PyVal) (f : Fetcher)
    (h : load_config input = Except.ok reqs) :
    (main_run input false f).dirCreated = true
    ∧ (main_run (ConfigInput.parsed (PyVal.list [])) false f).dirCreated = true
    ∧ (main_run (ConfigInput.parsed (PyVal.list [])) false f).files = [] := by
  refine ⟨?_, rfl, rfl⟩
  rw [main_run, h]
  by_cases hreq : reqs.isEmpty
  · simp [hreq]
  · simp only [hreq, Bool.false_eq_true, if_false]
    cases hc : (processRequests f OUTPUT_DIR reqs).crashed <;> simp [hc]

/-- Witness for C10: the empty configuration list. -/
theorem c10_dir_created_even_for_empty_batch_witness :
    (main_run (ConfigInput.parsed (PyVal.list [])) false emptyFetcher).dirCreated
      = true :=
  (c10_dir_created_even_for_empty_batch
    (ConfigInput.parsed (PyVal.list [])) [] emptyFetcher rfl).1

end YFD
